import Mathlib

/- Rational arithmetic is sealed behind `irreducible` upstream; reopen it so
that concrete states evaluate inside `decide`/`rfl` proofs. -/
set_option allowUnsafeReducibility true

attribute [local semireducible] Rat.add Rat.mul Rat.inv Rat.sub Rat.ofScientific

/-!
Shallow embedding of the tiered conversational memory engine of the
`my_clawbot` repository, translated from `src/memory/ShortTermMemory.js`,
`src/memory/LongTermMemory.js` and `src/memory/MemoryManager.js` (which also
contains the `RAGMemory` class).

Conventions of the embedding:

* JavaScript strings are modelled as `List Char` (`JStr`) so that every
  operation reduces in the kernel; `toLowerCase` is a character-wise map and
  `trim().length === 0` is the predicate `isBlank`.
* JavaScript numbers are modelled as exact rationals (`ℚ`); timestamps are
  integers (`ℤ`, supplied explicitly where the source calls `new Date()`).
* `Map` objects are modelled as insertion-ordered association lists, matching
  JavaScript `Map` iteration order; per-user maps are total functions
  `String → Option _` mirroring `has`/`get`/`set`/`delete`.
* Fallible operations return an `Except` result paired with the post state;
  a thrown exception leaves the state unchanged, as in the source.
* Environment-derived constants (`SHORT_MEMORY_LIMIT`, `LONG_MEMORY_THRESHOLD`)
  are parameters; the source defaults (50 and 100) are used by concrete
  instances.
-/

/-- JavaScript strings, modelled character-wise. -/
abbrev JStr := List Char

/-- JS `s.toLowerCase()`. -/
def jsToLower (s : JStr) : JStr := s.map Char.toLower

/-- JS `!s || s.trim().length === 0`: the string is absent-of-content, i.e. empty
or whitespace-only. -/
def isBlank (s : JStr) : Bool := s.all Char.isWhitespace

/-- JS `hay.includes(needle)`: substring containment. -/
def jsIncludes (hay needle : JStr) : Bool :=
  match hay with
  | [] => needle.isEmpty
  | c :: t => needle.isPrefixOf (c :: t) || jsIncludes t needle

/-- JS `a.slice(-limit)` on an array: the last `limit` elements, except that
`slice(-0)` is `slice(0)`, the whole array. -/
def jsSliceNeg (l : List α) (limit : ℕ) : List α :=
  if limit = 0 then l else l.drop (l.length - limit)

/-! ### ShortTermMemory (`src/memory/ShortTermMemory.js`)

The per-user recent buffer.  Items are kept abstract (`α`): the source
decorates each incoming item with a generated `id` and `timestamp`, neither of
which any claim depends on. -/

structure ShortTermMemory (α : Type) where
  /-- Source `this.memory : Map userId → array` -/
  mem : String → Option (List α)
  /-- Source `this.maxItems` (`SHORT_MEMORY_LIMIT`, default 50) -/
  maxItems : ℕ

/-- A fresh buffer store with no users. -/
def stmEmpty (maxItems : ℕ) : ShortTermMemory α := ⟨fun _ => none, maxItems⟩

/-- The list-level body of `add`: push to the end, then
`splice(0, length - maxItems)` when over capacity. -/
def stmAddList (maxItems : ℕ) (userMemory : List α) (item : α) : List α :=
  let pushed := userMemory ++ [item]
  if maxItems < pushed.length then pushed.drop (pushed.length - maxItems) else pushed

/-- Source `ShortTermMemory.add(userId, memoryItem)` (state part; the returned id is
not modelled). -/
def ShortTermMemory.add (st : ShortTermMemory α) (userId : String) (item : α) :
    ShortTermMemory α :=
  let userMemory := (st.mem userId).getD []
  { st with mem := fun u => if u = userId then some (stmAddList st.maxItems userMemory item) else st.mem u }

/-- Source `ShortTermMemory.getRecent(userId, limit)`: `slice(-limit).reverse()`. -/
def ShortTermMemory.getRecent (st : ShortTermMemory α) (userId : String) (limit : ℕ) : List α :=
  match st.mem userId with
  | none => []
  | some userMemory => (jsSliceNeg userMemory limit).reverse

/-- Source `ShortTermMemory.getCount(userId)`. -/
def ShortTermMemory.getCount (st : ShortTermMemory α) (userId : String) : ℕ :=
  match st.mem userId with
  | none => 0
  | some userMemory => userMemory.length

/-- Source `ShortTermMemory.getOldest(userId, limit)`: `slice(0, limit)`. -/
def ShortTermMemory.getOldest (st : ShortTermMemory α) (userId : String) (limit : ℕ) : List α :=
  match st.mem userId with
  | none => []
  | some userMemory => userMemory.take limit

/-- Source `ShortTermMemory.cleanup(userId, keepCount)`: keep only the last
`keepCount` items when over that count. -/
def ShortTermMemory.cleanup (st : ShortTermMemory α) (userId : String) (keepCount : ℕ) :
    ShortTermMemory α :=
  match st.mem userId with
  | none => st
  | some userMemory =>
    if keepCount < userMemory.length then
      { st with mem := fun u => if u = userId then some (jsSliceNeg userMemory keepCount) else st.mem u }
    else st

/-- Source `ShortTermMemory.clear(userId)`: delete the user's entry when present. -/
def ShortTermMemory.clear (st : ShortTermMemory α) (userId : String) : ShortTermMemory α :=
  match st.mem userId with
  | none => st
  | some _ => { st with mem := fun u => if u = userId then none else st.mem u }

/-! ### LongTermMemory (`src/memory/LongTermMemory.js`)

The durable SQLite-backed store, modelled as the list of rows of the
`long_term_memory` table with an auto-increment id counter.  The `content` and
`metadata` text columns are serialized JSON blobs in the source; no claim
inspects them, so the row model keeps the columns every claim reads:
`id`, `user_id`, `importance`, `timestamp`. -/

structure LTRecord where
  id : ℕ
  userId : String
  importance : ℚ
  timestamp : ℤ
deriving DecidableEq

structure LongTermMemory where
  records : List LTRecord
  nextId : ℕ
deriving DecidableEq

/-- The destructured argument of `store(userId, memoryData)`: `importance`
defaults to `0.5` when the field is absent, `timestamp` falls back to
`new Date()` (the `now` argument) via `timestamp || new Date()`. -/
structure LTStoreData where
  importance : Option ℚ
  timestamp : Option ℤ
deriving DecidableEq

/-- Source `LongTermMemory.store(userId, memoryData)`: INSERT a new row, returning
`lastID`. -/
def LongTermMemory.store (st : LongTermMemory) (userId : String) (d : LTStoreData) (now : ℤ) :
    ℕ × LongTermMemory :=
  let row : LTRecord :=
    { id := st.nextId
      userId := userId
      importance := d.importance.getD (1/2)
      timestamp := d.timestamp.getD now }
  (st.nextId, { records := st.records ++ [row], nextId := st.nextId + 1 })

/-- The fields of `update(id, updates)` that the row model carries.  The
source also updates `content` and `metadata` the same way (verbatim, no
transformation); they are not modelled. -/
structure LTUpdateData where
  importance : Option ℚ
deriving DecidableEq

/-- Source `LongTermMemory.update(id, updates)`: UPDATE the matching row, setting
exactly the supplied fields; returns `changes > 0`. -/
def LongTermMemory.update (st : LongTermMemory) (id : ℕ) (u : LTUpdateData) :
    Bool × LongTermMemory :=
  let newRecords := st.records.map fun r =>
    if r.id = id then { r with importance := u.importance.getD r.importance } else r
  (st.records.any (fun r => r.id == id), { st with records := newRecords })

/-- Source `LongTermMemory.clear(userId)`: DELETE the user's rows, returning the
change count. -/
def LongTermMemory.clear (st : LongTermMemory) (userId : String) : ℕ × LongTermMemory :=
  ((st.records.filter (fun r => r.userId == userId)).length,
   { st with records := st.records.filter (fun r => !(r.userId == userId)) })

/-- Options of `cleanup`: `maxAge` (days, default 365), `minImportance`
(default 0.1), `maxRecords` (default 10000). -/
structure LTCleanupOpts where
  maxAge : ℤ
  minImportance : ℚ
  maxRecords : ℕ
deriving DecidableEq

/-- Phase-1 predicate of `cleanup`: `timestamp < cutoffDate AND importance <
minImportance`. -/
def ltOldLow (cutoff : ℤ) (minImportance : ℚ) (r : LTRecord) : Bool :=
  decide (r.timestamp < cutoff) && decide (r.importance < minImportance)

/-- Ordering used by `ORDER BY timestamp ASC`. -/
def ltTsLE (a b : LTRecord) : Prop := a.timestamp ≤ b.timestamp

instance : DecidableRel ltTsLE := fun a b => inferInstanceAs (Decidable (a.timestamp ≤ b.timestamp))

instance : IsTotal LTRecord ltTsLE := ⟨fun a b => le_total a.timestamp b.timestamp⟩

instance : IsTrans LTRecord ltTsLE := ⟨fun _ _ _ h h2 => le_trans h h2⟩

/-- Source `LongTermMemory.cleanup(options)`: first DELETE rows that are older than
the cutoff AND below `minImportance`; then, if the remaining count exceeds
`maxRecords`, DELETE the `count - maxRecords` oldest remaining rows
(`ORDER BY timestamp ASC LIMIT excess`).  The function returns
`result1.changes`, the number of rows removed by the first phase only. -/
def LongTermMemory.cleanup (st : LongTermMemory) (now : ℤ) (o : LTCleanupOpts) :
    ℕ × LongTermMemory :=
  let cutoff := now - o.maxAge
  let phase1Removed := st.records.filter (ltOldLow cutoff o.minImportance)
  let kept1 := st.records.filter (fun r => !(ltOldLow cutoff o.minImportance r))
  if o.maxRecords < kept1.length then
    let excess := kept1.length - o.maxRecords
    let sorted := kept1.insertionSort ltTsLE
    let doomedIds := (sorted.take excess).map LTRecord.id
    (phase1Removed.length,
     { st with records := kept1.filter (fun r => !(doomedIds.contains r.id)) })
  else
    (phase1Removed.length, { st with records := kept1 })

/-! ### RAGMemory (`RAGMemory` class in `src/memory/MemoryManager.js`)

The semantic index.  The build under verification always runs with
`this.client === null` ("ChromaDB disabled"), so `addDocument` and `search`
take the in-memory fallback branches; those branches are what is embedded.
The sha-256 content hash of `generateDocumentId(content, metadata)` is
abstracted as the store's `genDocId` field — an arbitrary pure (hence
deterministic) function of the raw content and the caller-supplied metadata,
which is exactly what the source computes the hash from. -/

/-- The metadata object stored with a document:
`{...metadata, addedAt, contentLength}`. -/
structure RagMeta (μ : Type) where
  base : μ
  addedAt : ℤ
  contentLength : ℕ
deriving DecidableEq

structure RagDoc (μ : Type) where
  content : JStr
  metadata : RagMeta μ
deriving DecidableEq

structure RAGMemory (μ : Type) where
  /-- Source `this.documents : Map id → doc`, insertion-ordered. -/
  documents : List (ℕ × RagDoc μ)
  /-- Source `generateDocumentId`: 16 hex chars of sha-256 over content and
  serialized metadata, abstracted as a pure function. -/
  genDocId : JStr → μ → ℕ

/-- JS `Map.set(id, v)`: overwrite in place when the key exists (keeping its
iteration position), otherwise append. -/
def mapSet (docs : List (ℕ × RagDoc μ)) (id : ℕ) (d : RagDoc μ) : List (ℕ × RagDoc μ) :=
  if docs.any (fun p => p.1 == id) then
    docs.map (fun p => if p.1 == id then (id, d) else p)
  else docs ++ [(id, d)]

/-- Source `RAGMemory.addDocument(document)` (in-memory branch).  `content` is an
`Option` because the field may be absent from the argument object; an absent,
empty or whitespace-only content throws before any mutation, so the state
comes back unchanged alongside the error. -/
def RAGMemory.addDocument (st : RAGMemory μ) (content : Option JStr) (metadata : μ) (now : ℤ) :
    Except String ℕ × RAGMemory μ :=
  match content with
  | none => (Except.error "Document content cannot be empty", st)
  | some c =>
    if isBlank c then (Except.error "Document content cannot be empty", st)
    else
      let id := st.genDocId c metadata
      (Except.ok id,
       { st with documents := mapSet st.documents id ⟨c, ⟨metadata, now, c.length⟩⟩ })

/-- One entry of a `search` result:
`{content, similarity: 0.8, distance: 0.2, metadata}`. -/
structure RagSearchResult (μ : Type) where
  content : JStr
  similarity : ℚ
  distance : ℚ
  metadata : RagMeta μ
deriving DecidableEq

/-- The `for (const [id, doc] of this.documents)` loop of the fallback
`search`: push a fixed-similarity result for every case-insensitive substring
match. -/
def ragCollect (queryLower : JStr) : List (ℕ × RagDoc μ) → List (RagSearchResult μ)
  | [] => []
  | (_, d) :: rest =>
    if jsIncludes (jsToLower d.content) queryLower then
      ⟨d.content, 8/10, 2/10, d.metadata⟩ :: ragCollect queryLower rest
    else ragCollect queryLower rest

/-- Source `RAGMemory.search(query, limit)` (in-memory branch): empty result for a
blank query, otherwise the matching documents in insertion order, truncated by
`slice(0, limit)`.  Total — nothing in this branch can throw. -/
def RAGMemory.search (st : RAGMemory μ) (query : JStr) (limit : ℕ) : List (RagSearchResult μ) :=
  if isBlank query then []
  else (ragCollect (jsToLower query) st.documents).take limit

/-! ### MemoryManager (`src/memory/MemoryManager.js`) -/

/-- A short-tier item as the consolidation path sees it: `store` destructures
`importance` (absent ⇒ default 0.5) and `timestamp` out of it. -/
structure MMItem where
  importance : Option ℚ
  timestamp : Option ℤ
deriving DecidableEq

structure MemoryManager (α μ : Type) where
  shortTermMemory : ShortTermMemory α
  longTermMemory : LongTermMemory
  ragMemory : RAGMemory μ

/-- The bundle returned by `getRelevantContext`. -/
structure ContextBundle (σ ν ρ : Type) where
  shortTerm : List σ
  longTerm : List ν
  rag : List ρ
deriving DecidableEq

/-- Source `MemoryManager.getRelevantContext(userId, query)`, parametrized by the
outcomes of the three awaited tier calls (`getRecent`, `getRelevant`,
`search`).  The three awaits run sequentially inside one `try`; the `catch`
returns `{shortTerm: [], longTerm: [], rag: []}`.  The function is total: no
exception reaches the caller. -/
def getRelevantContext (shortRes : Except String (List σ)) (longRes : Except String (List ν))
    (ragRes : Except String (List ρ)) : ContextBundle σ ν ρ :=
  match shortRes with
  | Except.error _ => ⟨[], [], []⟩
  | Except.ok s =>
    match longRes with
    | Except.error _ => ⟨[], [], []⟩
    | Except.ok n =>
      match ragRes with
      | Except.error _ => ⟨[], [], []⟩
      | Except.ok r => ⟨s, n, r⟩

/-- Test for the `error` constructor. -/
def exceptIsError : Except ε α → Bool
  | Except.error _ => true
  | Except.ok _ => false

/-- Source `highImportanceKeywords` of `calculateImportance`. -/
def highImportanceKeywords : List JStr :=
  ["important".toList, "urgent".toList, "critical".toList, "remember".toList]

/-- Source `mediumImportanceKeywords` of `calculateImportance`. -/
def mediumImportanceKeywords : List JStr :=
  ["project".toList, "task".toList, "deadline".toList, "meeting".toList]

/-- Source `MemoryManager.calculateImportance(userMessage, botResponse)`: base 0.5,
+0.2 per high keyword contained in the lower-cased
`userMessage + ' ' + botResponse`, +0.1 per medium keyword, +0.1 for a long
response, +0.1 for a long message, capped by `Math.min(importance, 1.0)`. -/
def calculateImportance (userMessage botResponse : JStr) : ℚ :=
  let base : ℚ := 1/2
  let messageText := jsToLower (userMessage ++ [' '] ++ botResponse)
  let afterHigh := highImportanceKeywords.foldl
    (fun imp kw => if jsIncludes messageText kw then imp + 2/10 else imp) base
  let afterMed := mediumImportanceKeywords.foldl
    (fun imp kw => if jsIncludes messageText kw then imp + 1/10 else imp) afterHigh
  let afterResp := if 500 < botResponse.length then afterMed + 1/10 else afterMed
  let afterMsg := if 200 < userMessage.length then afterResp + 1/10 else afterResp
  min afterMsg 1

/-- The promotion test of `consolidateMemoryIfNeeded`:
`memory.importance && memory.importance > 0.7` — the field must be present
and truthy (a JavaScript `0` is falsy) and exceed 0.7. -/
def consolidateQualifies (it : MMItem) : Bool :=
  match it.importance with
  | none => false
  | some q => (!(q == 0)) && decide ((7:ℚ)/10 < q)

/-- Source `MemoryManager.consolidateMemoryIfNeeded(userId)`.  `threshold` stands for
`parseInt(process.env.LONG_MEMORY_THRESHOLD) || 100` (default 100).  Only when
the short-tier count strictly exceeds the threshold: store each qualifying one
of the 20 oldest items into long-term memory, then trim the buffer to
`threshold * 0.8` items (for the default 100 the JavaScript float product is
exactly 80, the value `threshold * 4 / 5` takes). -/
def MemoryManager.consolidateMemoryIfNeeded (st : MemoryManager MMItem μ) (userId : String)
    (threshold : ℕ) (now : ℤ) : MemoryManager MMItem μ :=
  let shortTermCount := st.shortTermMemory.getCount userId
  if threshold < shortTermCount then
    let oldMemories := st.shortTermMemory.getOldest userId 20
    let newLong := oldMemories.foldl
      (fun lt m =>
        if consolidateQualifies m then (lt.store userId ⟨m.importance, m.timestamp⟩ now).2 else lt)
      st.longTermMemory
    { st with
        longTermMemory := newLong
        shortTermMemory := st.shortTermMemory.cleanup userId (threshold * 4 / 5) }
  else st

/-- Source `MemoryManager.clearUserMemory(userId, type)`: clear the short tier for
`type ∈ {all, short}`, the long tier for `type ∈ {all, long}`; the shared RAG
memory is never cleared per user. -/
def MemoryManager.clearUserMemory (st : MemoryManager α μ) (userId : String) (type : String) :
    MemoryManager α μ :=
  let st1 :=
    if type == "all" || type == "short" then
      { st with shortTermMemory := st.shortTermMemory.clear userId }
    else st
  if type == "all" || type == "long" then
    { st1 with longTermMemory := (st1.longTermMemory.clear userId).2 }
  else st1

/-! ### Concrete instances used by the claims -/

/-- Concrete Recent Buffer content for claim C1: 100 events whose 20 oldest
hold exactly 3 items with importance above 0.7. -/
def c1Buffer : List MMItem :=
  List.replicate 3 ⟨some ((8:ℚ)/10), none⟩ ++ List.replicate 97 ⟨some ((1:ℚ)/10), none⟩

/-- Concrete engine state for claim C1 (buffer capacity 200, so 100 events fit;
empty Durable Store). -/
def c1State : MemoryManager MMItem Unit :=
  { shortTermMemory := ⟨fun u => if u = "u1" then some c1Buffer else none, 200⟩
    longTermMemory := ⟨[], 1⟩
    ragMemory := ⟨[], fun _ _ => 0⟩ }

/-- Concrete state for the C1 witness: the same buffer with one more event,
101 in total. -/
def c1WitnessState : MemoryManager MMItem Unit :=
  { shortTermMemory := ⟨fun u => if u = "u1" then some (c1Buffer ++ [⟨none, none⟩]) else none, 200⟩
    longTermMemory := ⟨[], 1⟩
    ragMemory := ⟨[], fun _ _ => 0⟩ }

/-- Concrete Durable Store after one `store` call passing importance 1.5. -/
def c3Store : LongTermMemory :=
  (LongTermMemory.store ⟨[], 1⟩ "u1" ⟨some ((3:ℚ)/2), some 0⟩ 0).2

/-- Two fresh, sufficiently important records: phase 1 of `cleanup` removes
nothing. -/
def c4State : LongTermMemory :=
  ⟨[⟨1, "u1", (1:ℚ)/2, 0⟩, ⟨2, "u1", (1:ℚ)/2, 1⟩], 3⟩

/-- Cleanup options `{maxAgeDays := 5, minImportance := 0, maxRecords := 1}`. -/
def c4Opts : LTCleanupOpts := ⟨5, 0, 1⟩

/-- Empty semantic index whose id function is content length. -/
def c7State : RAGMemory ℕ := ⟨[], fun c _ => c.length⟩

/-- Semantic index holding the single document "a b". -/
def c8State : RAGMemory Unit :=
  (RAGMemory.addDocument ⟨[], fun _ _ => 0⟩ (some "a b".toList) () 0).2

/-- Semantic index holding "foobar" and "baz" (in that insertion order). -/
def c8FoobarState : RAGMemory Unit :=
  ((RAGMemory.addDocument ⟨[], fun c _ => c.length⟩ (some "foobar".toList) () 0).2.addDocument
      (some "baz".toList) () 0).2

/-! ### Shared helper lemmas -/

theorem jsSliceNeg_of_le (l : List α) (m : ℕ) (h : l.length ≤ m) : jsSliceNeg l m = l := by
  unfold jsSliceNeg
  split
  · rfl
  · rw [Nat.sub_eq_zero_of_le h, List.drop_zero]

theorem stmAddList_eq_drop (m : ℕ) (b : List α) (x : α) :
    stmAddList m b x = (b ++ [x]).drop ((b ++ [x]).length - m) := by
  simp only [stmAddList]
  split
  · rfl
  · next h =>
    rw [Nat.sub_eq_zero_of_le (Nat.le_of_not_lt h), List.drop_zero]

theorem drop_sub_eq_reverse_take (m : ℕ) (l : List α) :
    l.drop (l.length - m) = (l.reverse.take m).reverse := by
  rw [List.take_reverse, List.reverse_reverse]

theorem take_append_take (m : ℕ) (u v : List α) :
    (u ++ v.take m).take m = (u ++ v).take m := by
  rw [List.take_append_eq_append_take, List.take_append_eq_append_take, List.take_take,
    Nat.min_eq_left (Nat.sub_le m u.length)]

theorem lastN_append (m : ℕ) (l xs : List α) :
    (l.drop (l.length - m) ++ xs).drop ((l.drop (l.length - m) ++ xs).length - m) =
      (l ++ xs).drop ((l ++ xs).length - m) := by
  rw [drop_sub_eq_reverse_take m (l.drop (l.length - m) ++ xs),
    drop_sub_eq_reverse_take m (l ++ xs), List.reverse_append, List.reverse_append,
    drop_sub_eq_reverse_take m l, List.reverse_reverse, take_append_take]

theorem foldl_stmAddList (m : ℕ) (xs : List α) :
    ∀ b : List α, b.length ≤ m →
      xs.foldl (stmAddList m) b = (b ++ xs).drop ((b ++ xs).length - m) := by
  induction xs with
  | nil =>
    intro b hb
    simp [Nat.sub_eq_zero_of_le hb]
  | cons x xs ih =>
    intro b _
    rw [List.foldl_cons, stmAddList_eq_drop]
    have hlen : ((b ++ [x]).drop ((b ++ [x]).length - m)).length ≤ m := by
      rw [List.length_drop]
      omega
    rw [ih _ hlen, lastN_append]
    simp

theorem add_mem_self (st : ShortTermMemory α) (uid : String) (x : α) :
    (st.add uid x).mem uid = some (stmAddList st.maxItems ((st.mem uid).getD []) x) := by
  simp [ShortTermMemory.add]

theorem add_maxItems (st : ShortTermMemory α) (uid : String) (x : α) :
    (st.add uid x).maxItems = st.maxItems := rfl

theorem foldl_add_mem (uid : String) (xs : List α) :
    ∀ (st : ShortTermMemory α) (x : α),
      ((x :: xs).foldl (fun s x => s.add uid x) st).mem uid =
        some ((x :: xs).foldl (stmAddList st.maxItems) ((st.mem uid).getD [])) := by
  induction xs with
  | nil =>
    intro st x
    simpa using add_mem_self st uid x
  | cons y ys ih =>
    intro st x
    rw [List.foldl_cons, ih (st.add uid x) y, add_maxItems, add_mem_self]
    simp

theorem foldl_if_add_count (p : JStr → Bool) (step : ℚ) (kws : List JStr) :
    ∀ b : ℚ, kws.foldl (fun imp kw => if p kw then imp + step else imp) b
      = b + step * ((kws.filter p).length : ℚ) := by
  induction kws with
  | nil => intro b; simp
  | cons k ks ih =>
    intro b
    by_cases h : p k <;> simp [List.foldl_cons, List.filter_cons, h, ih] <;> push_cast <;> ring

theorem foldl_store_length (uid : String) (now : ℤ) (items : List MMItem) :
    ∀ lt : LongTermMemory,
      (items.foldl
        (fun lt m =>
          if consolidateQualifies m then (lt.store uid ⟨m.importance, m.timestamp⟩ now).2 else lt)
        lt).records.length
        = lt.records.length + (items.filter consolidateQualifies).length := by
  induction items with
  | nil => intro lt; simp
  | cons m ms ih =>
    intro lt
    rw [List.foldl_cons]
    cases hq : consolidateQualifies m
    · simp only [Bool.false_eq_true, if_false, List.filter_cons, hq, ih]
    · simp only [if_true, List.filter_cons, hq, ih]
      simp [LongTermMemory.store]
      omega

/-! ### Claims -/

/-- Claim C5 (confirmed): for every user, appending `N > maxItems` items into
a fresh Recent Buffer leaves `count(userId) = maxItems`, and
`recent(userId, maxItems)` returns exactly the last `maxItems` appended items
most-recent-first; the dropped items are always the oldest (the front). -/
theorem C5_recent_buffer_bound (maxItems : ℕ) (uid : String) (xs : List α)
    (h : maxItems < xs.length) :
    ((xs.foldl (fun s x => s.add uid x) (stmEmpty maxItems)).getCount uid = maxItems) ∧
    ((xs.foldl (fun s x => s.add uid x) (stmEmpty maxItems)).getRecent uid maxItems =
      (xs.drop (xs.length - maxItems)).reverse) := by
  have hbuf : (xs.foldl (fun s x => s.add uid x) (stmEmpty maxItems)).mem uid
      = some (xs.drop (xs.length - maxItems)) := by
    match xs, h with
    | x :: xs, _ =>
      rw [foldl_add_mem uid xs (stmEmpty (α := α) maxItems) x]
      have hfold := foldl_stmAddList (α := α) maxItems (x :: xs) [] (by simp)
      simp only [stmEmpty, Option.getD_none]
      rw [hfold]
      simp
  have hlen : (xs.drop (xs.length - maxItems)).length = maxItems := by
    rw [List.length_drop]
    omega
  constructor
  · simp [ShortTermMemory.getCount, hbuf, hlen]
  · simp only [ShortTermMemory.getRecent, hbuf]
    rw [jsSliceNeg_of_le _ _ (le_of_eq hlen)]

/-- Witness for C5: five appends into a buffer capped at three leave exactly
the last three items, most recent first. -/
theorem C5_witness :
    3 < ([10, 20, 30, 40, 50] : List ℕ).length ∧
    (([10, 20, 30, 40, 50] : List ℕ).foldl (fun s x => s.add "u" x) (stmEmpty 3)).getCount "u" = 3 ∧
    (([10, 20, 30, 40, 50] : List ℕ).foldl (fun s x => s.add "u" x) (stmEmpty 3)).getRecent "u" 3
      = [50, 40, 30] := by
  refine ⟨by decide, (C5_recent_buffer_bound 3 "u" [10, 20, 30, 40, 50] (by decide)).1, ?_⟩
  rw [(C5_recent_buffer_bound 3 "u" [10, 20, 30, 40, 50] (by decide)).2]
  decide

/-- Claim C6 (confirmed): `calculateImportance` is the saturating additive
score `min(1, 0.5 + 0.2·#high-keyword hits + 0.1·#medium-keyword hits
+ 0.1·[response > 500] + 0.1·[message > 200])` over the case-folded
concatenation, and in particular scores 0.9 on
`("this is urgent and important", "ok")` and 0.5 on `("hi", "hello")`.
(The score is a pure function of the two strings, hence deterministic;
arithmetic is modelled exactly over `ℚ`.) -/
theorem C6_importance_formula :
    (∀ um br : JStr,
      calculateImportance um br =
        min (1/2
          + 2/10 * (((highImportanceKeywords.filter
              (fun kw => jsIncludes (jsToLower (um ++ [' '] ++ br)) kw)).length : ℚ))
          + 1/10 * (((mediumImportanceKeywords.filter
              (fun kw => jsIncludes (jsToLower (um ++ [' '] ++ br)) kw)).length : ℚ))
          + (if 500 < br.length then (1:ℚ)/10 else 0)
          + (if 200 < um.length then (1:ℚ)/10 else 0)) 1) ∧
    calculateImportance "this is urgent and important".toList "ok".toList = 9/10 ∧
    calculateImportance "hi".toList "hello".toList = 1/2 := by
  refine ⟨?_, by decide, by decide⟩
  intro um br
  simp only [calculateImportance]
  rw [foldl_if_add_count, foldl_if_add_count]
  by_cases h1 : 500 < br.length <;> by_cases h2 : 200 < um.length <;>
    simp only [h1, h2, if_true, if_false] <;> congr 1 <;> ring

/-- Claim C1 (counterexample): with the Recent Buffer holding exactly 100
events and the default threshold 100, the premises of the claim hold (count
100, exactly 3 promotable among the 20 oldest), yet `consolidateMemoryIfNeeded`
does nothing — the guard is strict (`count > threshold`), so the Durable Store
does not gain 3 records and the buffer is not trimmed to 80. -/
theorem C1_counterexample :
    c1State.shortTermMemory.getCount "u1" = 100 ∧
    ((c1State.shortTermMemory.getOldest "u1" 20).filter consolidateQualifies).length = 3 ∧
    ¬ (((c1State.consolidateMemoryIfNeeded "u1" 100 0).longTermMemory.records.length =
          c1State.longTermMemory.records.length + 3) ∧
       (c1State.consolidateMemoryIfNeeded "u1" 100 0).shortTermMemory.getCount "u1" = 80) := by
  refine ⟨by decide, by decide, ?_⟩
  decide

/-- Claim C1 (amended): when the Recent Buffer holds strictly more than the
threshold 100 events and its 20 oldest events hold exactly 3 with importance
above 0.7, consolidation stores exactly 3 new records in the Durable Store and
trims the buffer to 80 items. -/
theorem C1_amended (μ : Type) (st : MemoryManager MMItem μ) (uid : String) (now : ℤ)
    (hcount : 100 < st.shortTermMemory.getCount uid)
    (hq : ((st.shortTermMemory.getOldest uid 20).filter consolidateQualifies).length = 3) :
    ((st.consolidateMemoryIfNeeded uid 100 now).longTermMemory.records.length =
      st.longTermMemory.records.length + 3) ∧
    (st.consolidateMemoryIfNeeded uid 100 now).shortTermMemory.getCount uid = 80 := by
  unfold MemoryManager.consolidateMemoryIfNeeded
  rw [if_pos hcount]
  constructor
  · simp only []
    rw [foldl_store_length, hq]
  · simp only []
    cases hmem : st.shortTermMemory.mem uid with
    | none =>
      simp only [ShortTermMemory.getCount, hmem] at hcount
      omega
    | some l =>
      simp only [ShortTermMemory.getCount, hmem] at hcount
      simp only [ShortTermMemory.cleanup, hmem]
      rw [if_pos (by omega : (100 * 4 / 5 : ℕ) < l.length)]
      simp only [ShortTermMemory.getCount, if_pos rfl]
      rw [jsSliceNeg, if_neg (by omega : ¬ ((100 * 4 / 5 : ℕ) = 0))]
      show (List.drop (l.length - 100 * 4 / 5) l).length = 80
      rw [List.length_drop]
      omega

/-- Witness for the amended C1 at a concrete 101-event state. -/
theorem C1_amended_witness :
    (100 < c1WitnessState.shortTermMemory.getCount "u1") ∧
    ((c1WitnessState.shortTermMemory.getOldest "u1" 20).filter consolidateQualifies).length = 3 ∧
    (((c1WitnessState.consolidateMemoryIfNeeded "u1" 100 0).longTermMemory.records.length =
        c1WitnessState.longTermMemory.records.length + 3) ∧
      (c1WitnessState.consolidateMemoryIfNeeded "u1" 100 0).shortTermMemory.getCount "u1" = 80) :=
  ⟨by decide, by decide, C1_amended Unit c1WitnessState "u1" 0 (by decide) (by decide)⟩

/-- Claim C2 (counterexample): when only the Semantic Index call fails, the
code does not keep the other two tiers — the single `catch` empties the whole
bundle, so the bundle the claim predicts is not returned. -/
theorem C2_counterexample :
    getRelevantContext (Except.ok [7]) (Except.ok [8])
        (Except.error "tier failure" : Except String (List ℕ)) ≠
      (⟨[7], [8], []⟩ : ContextBundle ℕ ℕ ℕ) := by
  decide

/-- Claim C2 (amended): if exactly one of the three tier calls raises, the
returned bundle is empty in all three fields — the whole assembly degrades,
not just the failing tier — and no exception propagates (the function is
total). -/
theorem C2_amended (σ ν ρ : Type) (s : Except String (List σ)) (n : Except String (List ν))
    (r : Except String (List ρ))
    (h : (if exceptIsError s then 1 else 0) + (if exceptIsError n then 1 else 0)
        + (if exceptIsError r then 1 else 0) = 1) :
    getRelevantContext s n r = ⟨[], [], []⟩ := by
  cases s with
  | error e => rfl
  | ok ls =>
    cases n with
    | error e => rfl
    | ok ln =>
      cases r with
      | error e => rfl
      | ok lr => simp [exceptIsError] at h

/-- Witness for the amended C2: a failing RAG tier with the two other tiers
succeeding yields the all-empty bundle. -/
theorem C2_amended_witness :
    ((if exceptIsError (Except.ok [1] : Except String (List ℕ)) then 1 else 0)
      + (if exceptIsError (Except.ok [2] : Except String (List ℕ)) then 1 else 0)
      + (if exceptIsError (Except.error "x" : Except String (List ℕ)) then 1 else 0) = 1) ∧
    getRelevantContext (Except.ok [1]) (Except.ok [2])
        (Except.error "x" : Except String (List ℕ)) = ⟨[], [], []⟩ :=
  ⟨by decide, C2_amended ℕ ℕ ℕ (Except.ok [1]) (Except.ok [2]) (Except.error "x") (by decide)⟩

/-- Claim C3 (counterexample): `store` passes an explicit out-of-range
importance straight through — after storing importance 1.5 the store holds a
record outside `[0,1]`, so no clamping happens. -/
theorem C3_counterexample :
    ¬ (∀ r ∈ c3Store.records, 0 ≤ r.importance ∧ r.importance ≤ 1) := by
  decide

/-- Claim C3 (amended): `store` and `update` write the importance value
exactly as passed (with `store` defaulting an absent value to 0.5); nothing is
clamped or rejected, so out-of-range values are persisted as-is. -/
theorem C3_passthrough (st : LongTermMemory) (uid : String) (d : LTStoreData) (now : ℤ)
    (id : ℕ) (q : ℚ) :
    (∀ r ∈ (st.store uid d now).2.records,
        r ∈ st.records ∨ r.importance = d.importance.getD (1/2)) ∧
    ((st.store uid d now).2.records.length = st.records.length + 1) ∧
    (∀ r ∈ (st.update id ⟨some q⟩).2.records,
        (r.id = id → r.importance = q) ∧ (r.id ≠ id → r ∈ st.records)) := by
  refine ⟨?_, ?_, ?_⟩
  · intro r hr
    simp only [LongTermMemory.store, List.mem_append, List.mem_singleton] at hr
    rcases hr with h | h
    · exact Or.inl h
    · subst h
      exact Or.inr rfl
  · simp [LongTermMemory.store]
  · intro r hr
    simp only [LongTermMemory.update, List.mem_map] at hr
    obtain ⟨a, ha, rfl⟩ := hr
    by_cases hid : a.id = id
    · rw [if_pos hid]
      exact ⟨fun _ => rfl, fun hne => absurd hid hne⟩
    · rw [if_neg hid]
      exact ⟨fun h => absurd h hid, fun _ => ha⟩

/-- Witness for the amended C3: the record stored with importance 1.5 carries
exactly importance 1.5. -/
theorem C3_passthrough_witness :
    ((⟨1, "u1", (3:ℚ)/2, 0⟩ : LTRecord) ∈ c3Store.records) ∧
    ((⟨1, "u1", (3:ℚ)/2, 0⟩ : LTRecord) ∈ ([] : List LTRecord) ∨
      (⟨1, "u1", (3:ℚ)/2, 0⟩ : LTRecord).importance = (some ((3:ℚ)/2)).getD (1/2)) :=
  ⟨by decide,
   (C3_passthrough ⟨[], 1⟩ "u1" ⟨some ((3:ℚ)/2), some 0⟩ 0 0 0).1 _ (by decide)⟩

/-- Claim C4 (code bug): at this input phase 1 removes nothing, phase 2
removes one record to enforce the cap of 1, yet `cleanup` returns 0 — only
`result1.changes`, the phase-1 count — although the claim (and the source's
own log line, which counts `changes1 + changes2`) says the total removed by
both phases, here 1. -/
theorem C4_return_value_bug :
    ((c4State.cleanup 10 c4Opts).1 = 0) ∧
    ((c4State.cleanup 10 c4Opts).2.records.length = 1) ∧
    (c4State.records.length - (c4State.cleanup 10 c4Opts).2.records.length = 1) := by
  decide

theorem mapSet_length_of_contains (docs : List (ℕ × RagDoc μ)) (id : ℕ) (d : RagDoc μ)
    (h : docs.any (fun p => p.1 == id) = true) :
    (mapSet docs id d).length = docs.length := by
  unfold mapSet
  rw [if_pos h, List.length_map]

theorem mapSet_contains (docs : List (ℕ × RagDoc μ)) (id : ℕ) (d : RagDoc μ) :
    (mapSet docs id d).any (fun p => p.1 == id) = true := by
  unfold mapSet
  split
  · next h =>
    rw [List.any_eq_true] at h ⊢
    obtain ⟨p, hp, hpe⟩ := h
    refine ⟨if p.1 == id then (id, d) else p, List.mem_map_of_mem _ hp, ?_⟩
    rw [if_pos hpe]
    simp
  · rw [List.any_append]
    simp

theorem addDocument_ok (st : RAGMemory μ) (c : JStr) (m : μ) (now : ℤ)
    (h : isBlank c = false) :
    st.addDocument (some c) m now =
      (Except.ok (st.genDocId c m),
       ⟨mapSet st.documents (st.genDocId c m) ⟨c, ⟨m, now, c.length⟩⟩, st.genDocId⟩) := by
  simp [RAGMemory.addDocument, h]

/-- Claim C7 (confirmed): adding the same `(content, metadata)` pair twice
yields the same document id both times (the id is the pure function
`genDocId` of content and metadata only), and the second add leaves the total
document count unchanged — `Map.set` on an existing key overwrites in
place. -/
theorem C7_idempotent_add (μ : Type) (st : RAGMemory μ) (c : JStr) (m : μ) (now1 now2 : ℤ)
    (h : isBlank c = false) :
    ((st.addDocument (some c) m now1).1 = Except.ok (st.genDocId c m)) ∧
    (((st.addDocument (some c) m now1).2.addDocument (some c) m now2).1 =
      Except.ok (st.genDocId c m)) ∧
    (((st.addDocument (some c) m now1).2.addDocument (some c) m now2).2.documents.length =
      (st.addDocument (some c) m now1).2.documents.length) := by
  refine ⟨?_, ?_, ?_⟩
  · rw [addDocument_ok st c m now1 h]
  · rw [addDocument_ok st c m now1 h, addDocument_ok _ c m now2 h]
  · rw [addDocument_ok st c m now1 h, addDocument_ok _ c m now2 h]
    exact mapSet_length_of_contains _ _ _
      (mapSet_contains st.documents (st.genDocId c m) ⟨c, ⟨m, now1, c.length⟩⟩)

/-- Witness for C7 at a concrete store and document. -/
theorem C7_witness :
    (isBlank "doc".toList = false) ∧
    ((c7State.addDocument (some "doc".toList) 5 0).1 =
      Except.ok (c7State.genDocId "doc".toList 5)) ∧
    (((c7State.addDocument (some "doc".toList) 5 0).2.addDocument
        (some "doc".toList) 5 1).1 = Except.ok (c7State.genDocId "doc".toList 5)) ∧
    (((c7State.addDocument (some "doc".toList) 5 0).2.addDocument
        (some "doc".toList) 5 1).2.documents.length =
      (c7State.addDocument (some "doc".toList) 5 0).2.documents.length) :=
  ⟨by decide, C7_idempotent_add ℕ c7State "doc".toList 5 0 1 (by decide)⟩

theorem ragCollect_eq (queryLower : JStr) (docs : List (ℕ × RagDoc μ)) :
    ragCollect queryLower docs =
      (docs.filter (fun p => jsIncludes (jsToLower p.2.content) queryLower)).map
        (fun p => (⟨p.2.content, 8/10, 2/10, p.2.metadata⟩ : RagSearchResult μ)) := by
  induction docs with
  | nil => rfl
  | cons p rest ih =>
    obtain ⟨i, d⟩ := p
    cases hc : jsIncludes (jsToLower d.content) queryLower <;>
      simp [ragCollect, List.filter_cons, hc, ih]

/-- Claim C8 (counterexample): the query `" "` is non-empty, and the stored
document "a b" contains it as a (case-insensitive) substring, yet `search`
returns nothing — the guard `query.trim().length === 0` discards
whitespace-only queries before any matching. -/
theorem C8_counterexample :
    (" ".toList ≠ ([] : JStr)) ∧
    (jsIncludes (jsToLower "a b".toList) (jsToLower " ".toList) = true) ∧
    (c8State.documents.map (fun p => p.2.content) = ["a b".toList]) ∧
    (c8State.search " ".toList 5 = []) ∧
    ¬ ((c8State.search " ".toList 5).map (fun r => r.content) = ["a b".toList]) := by
  decide

/-- Claim C8 (amended): for every query that is non-blank (non-empty after
trimming), fallback `search` returns exactly the stored documents whose
content contains the query case-insensitively — each with the fixed nominal
similarity 0.8 — in insertion order, truncated to `limit`; the fallback path
is total, so it never throws. -/
theorem C8_fallback_search (μ : Type) (st : RAGMemory μ) (q : JStr) (limit : ℕ)
    (h : isBlank q = false) :
    st.search q limit =
      ((st.documents.filter (fun p => jsIncludes (jsToLower p.2.content) (jsToLower q))).map
        (fun p => (⟨p.2.content, 8/10, 2/10, p.2.metadata⟩ : RagSearchResult μ))).take limit := by
  unfold RAGMemory.search
  rw [if_neg (by simp [h]), ragCollect_eq]

/-- Witness for the amended C8: `search("foo")` over `["foobar", "baz"]`
returns exactly the "foobar" document with similarity 0.8. -/
theorem C8_fallback_search_witness :
    (isBlank "foo".toList = false) ∧
    (c8FoobarState.search "foo".toList 5 =
      ((c8FoobarState.documents.filter
          (fun p => jsIncludes (jsToLower p.2.content) (jsToLower "foo".toList))).map
        (fun p => (⟨p.2.content, 8/10, 2/10, p.2.metadata⟩ : RagSearchResult Unit))).take 5) ∧
    ((c8FoobarState.search "foo".toList 5).map (fun r => r.content) = ["foobar".toList]) ∧
    ((c8FoobarState.search "foo".toList 5).map (fun r => r.similarity) = [8/10]) :=
  ⟨by decide, C8_fallback_search Unit c8FoobarState "foo".toList 5 (by decide),
   by decide, by decide⟩

theorem clear_mem_self (st : ShortTermMemory α) (uid : String) :
    (st.clear uid).mem uid = none := by
  cases hmem : st.mem uid with
  | none => simp [ShortTermMemory.clear, hmem]
  | some l => simp [ShortTermMemory.clear, hmem]

theorem ltClear_filter (st : LongTermMemory) (uid : String) :
    ((st.clear uid).2.records.filter (fun r => r.userId == uid)) = [] := by
  simp [LongTermMemory.clear, List.filter_filter]

/-- Claim C9 (confirmed): `clearUserMemory(userId, "short")` empties only that
user's Recent Buffer, leaving the Durable Store untouched (hence every record
of that user intact); `clearUserMemory(userId, "all")` empties the user's
Recent Buffer and the user's Durable Store records while never touching the
shared Semantic Index. -/
theorem C9_clear_scopes (α μ : Type) (st : MemoryManager α μ) (uid : String) :
    ((st.clearUserMemory uid "short").shortTermMemory.mem uid = none) ∧
    ((st.clearUserMemory uid "short").longTermMemory = st.longTermMemory) ∧
    ((st.clearUserMemory uid "all").shortTermMemory.mem uid = none) ∧
    ((st.clearUserMemory uid "all").longTermMemory.records.filter
        (fun r => r.userId == uid) = []) ∧
    ((st.clearUserMemory uid "all").ragMemory = st.ragMemory) := by
  have h1 : (("short" == "all") || ("short" == "short")) = true := by decide
  have h2 : (("short" == "all") || ("short" == "long")) = false := by decide
  have h3 : (("all" == "all") || ("all" == "short")) = true := by decide
  have h4 : (("all" == "all") || ("all" == "long")) = true := by decide
  refine ⟨?_, ?_, ?_, ?_, ?_⟩ <;>
    simp [MemoryManager.clearUserMemory, h1, h2, h3, h4, clear_mem_self, ltClear_filter]

/-- Claim C10 (confirmed): `addDocument` with absent, empty or whitespace-only
content throws (`"Document content cannot be empty"`) before any mutation, so
the stored document set is unchanged; non-empty content is a hard
precondition. -/
theorem C10_empty_content_rejected (μ : Type) (st : RAGMemory μ) (content : Option JStr)
    (m : μ) (now : ℤ)
    (h : content = none ∨ ∃ c, content = some c ∧ isBlank c = true) :
    ((st.addDocument content m now).1 = Except.error "Document content cannot be empty") ∧
    (st.addDocument content m now).2 = st := by
  rcases h with rfl | ⟨c, rfl, hb⟩
  · exact ⟨rfl, rfl⟩
  · simp [RAGMemory.addDocument, hb]

/-- Witness for C10: whitespace-only content is rejected and the store is
untouched. -/
theorem C10_witness :
    ((some "  ".toList : Option JStr) = none ∨
      ∃ c, (some "  ".toList : Option JStr) = some c ∧ isBlank c = true) ∧
    ((c7State.addDocument (some "  ".toList) 0 0).1 =
      Except.error "Document content cannot be empty") ∧
    (c7State.addDocument (some "  ".toList) 0 0).2 = c7State :=
  ⟨Or.inr ⟨"  ".toList, rfl, by decide⟩,
   C10_empty_content_rejected ℕ c7State (some "  ".toList) 0 0
     (Or.inr ⟨"  ".toList, rfl, by decide⟩)⟩
